import Mathlib

/-!
Verification of the AMCL update-driver node (`amcl_node.cpp`) of the
Ferbernanda/Thesis repository.  The definitions below are a shallow
embedding of the C++ source: doubles are modelled as real numbers (or
rationals where only ordered-field operations occur), C integers as
`Int`/`Nat`, ROS parameter-server lookups as partial maps from keys to
values, and fallible operations as `Option`.
-/

/-- A `pf_vector_t`: a planar pose (x, y, yaw). -/
structure PfVector where
  x : ℝ
  y : ℝ
  yaw : ℝ

/- ----------------------------------------------------------------
   Parameter-server reads (AmclNode constructor, lines 390-480).
   `private_nh_.param(key, var, dflt)` stores the value found under
   `key`, or `dflt` when the key is absent.
   ---------------------------------------------------------------- -/

/-- One `private_nh_.param(key, var, dflt)` read. -/
def paramRead (params : String → Option ℚ) (key : String) (dflt : ℚ) : ℚ :=
  (params key).getD dflt

/-- Line 401: `private_nh_.param("camera_coeff", marker_coeff, 0.5)`. -/
def marker_coeff (params : String → Option ℚ) : ℚ :=
  paramRead params "camera_coeff" (1/2)

/-- Line 402: `private_nh_.param("camera_coeff", laser_coeff, 0.5)`. -/
def laser_coeff (params : String → Option ℚ) : ℚ :=
  paramRead params "camera_coeff" (1/2)

/- ----------------------------------------------------------------
   Resampling decisions (laserReceived lines 1474-1479,
   detectionCallback lines 2038-2042).
   ---------------------------------------------------------------- -/

/-- Laser-path resampling, lines 1474-1479.  The modulo test
`if(!(++resample_count_scan % resample_interval_))` is commented out in
the source, so `pf_update_resample` runs and `resampled` is set on every
laser update cycle; `resample_count_scan` is not incremented.
Returns (new resample count, whether `pf_update_resample` ran,
the value of the `resampled` flag). -/
def laserResampleStep (resampleCountScan interval : ℤ) : ℤ × Bool × Bool :=
  (resampleCountScan, true, true)

/-- Camera-path resampling, lines 2038-2042.  The `if` statement
`if(!(++resample_count_cam % resample_interval_))` has no braces, so only
`pf_update_resample(pf_)` is conditional; `resampled = true` executes
unconditionally on every camera update cycle.
Returns (new resample count, whether `pf_update_resample` ran,
the value of the `resampled` flag). -/
def cameraResampleStep (resampleCountCam interval : ℤ) : ℤ × Bool × Bool :=
  let c := resampleCountCam + 1
  (c, if c % interval = 0 then true else false, true)

/- ----------------------------------------------------------------
   Map->odom transform broadcasts (laserReceived lines 1632-1661,
   detectionCallback lines 2185-2219).  Timestamps are rationals.
   ---------------------------------------------------------------- -/

/-- A `tf::StampedTransform` as sent to the broadcaster: whether the
inverse of `latest_tf_` was sent, the timestamp it carries, and the
frame pair. -/
structure StampedTransformT where
  invertedTf : Bool
  stamp : ℚ
  frame_id : String
  child_frame_id : String

/-- Laser path, fresh update (lines 1632-1643): the transform is stamped
with `transform_expiration = laser_scan->header.stamp + transform_tolerance_`. -/
def laserFreshBroadcast (scanStamp tol : ℚ) (g o : String) : StampedTransformT :=
  let transform_expiration := scanStamp + tol
  ⟨true, transform_expiration, g, o⟩

/-- Laser path, no update fired (lines 1650-1662): the last valid
transform is republished, stamped with `scan stamp + transform_tolerance_`. -/
def laserRepublishBroadcast (scanStamp tol : ℚ) (g o : String) : StampedTransformT :=
  let transform_expiration := scanStamp + tol
  ⟨true, transform_expiration, g, o⟩

/-- Camera path, fresh update (lines 2185-2199): `transform_expiration`
is computed as `msg->header.stamp + transform_tolerance_` (line 2189) but
the two `tf::StampedTransform`s actually constructed (lines 2191-2198)
carry `msg->header.stamp`, not `transform_expiration`. -/
def cameraFreshBroadcast (msgStamp tol : ℚ) (g o : String) : List StampedTransformT :=
  [⟨true, msgStamp, g, o⟩, ⟨false, msgStamp, o, g⟩]

/-- Camera path, no update fired (lines 2206-2219): both republished
transforms carry `msg->header.stamp + transform_tolerance_`. -/
def cameraRepublishBroadcast (msgStamp tol : ℚ) (g o : String) : List StampedTransformT :=
  let transform_expiration := msgStamp + tol
  [⟨true, transform_expiration, g, o⟩, ⟨false, transform_expiration, o, g⟩]

/- ----------------------------------------------------------------
   Laser range preprocessing (laserReceived lines 1440-1463).
   ---------------------------------------------------------------- -/

/-- Lines 1440-1443: `ldata.range_max` is `min(scan range_max,
laser_max_range_)` when the configured maximum is set (positive), else
the scan's `range_max`. -/
def effectiveRangeMax (laser_max_range scan_range_max : ℚ) : ℚ :=
  if laser_max_range > 0 then min scan_range_max laser_max_range else scan_range_max

/-- Lines 1444-1448: `range_min` is `max(scan range_min, laser_min_range_)`
when the configured minimum is set (positive), else the scan's `range_min`. -/
def effectiveRangeMin (laser_min_range scan_range_min : ℚ) : ℚ :=
  if laser_min_range > 0 then max scan_range_min laser_min_range else scan_range_min

/-- Lines 1456-1459: a measured range at or below `range_min` is mapped
to `range_max`; any other range is passed through. -/
def processRange (range_min range_max r : ℚ) : ℚ :=
  if r ≤ range_min then range_max else r

/-- The whole loop of lines 1452-1463 restricted to the range values
(the bearing computation is independent of the ranges). -/
def processScanRanges (laser_min_range laser_max_range scan_range_min scan_range_max : ℚ)
    (ranges : List ℚ) : List ℚ :=
  ranges.map (processRange (effectiveRangeMin laser_min_range scan_range_min)
    (effectiveRangeMax laser_max_range scan_range_max))

/- ----------------------------------------------------------------
   Map construction (convertMap, lines 1114-1139) and the free-cell
   index (handleMapMessage, lines 1013-1020).
   ---------------------------------------------------------------- -/

/-- The fields of a `nav_msgs::OccupancyGrid` consumed by `convertMap`. -/
structure OccGridMsg where
  width : ℕ
  height : ℕ
  resolution : ℝ
  origin_x : ℝ
  origin_y : ℝ
  data : List ℤ

/-- The fields of a `map_t` produced by `convertMap`; `cells` holds each
cell's `occ_state`. -/
structure MapT where
  size_x : ℕ
  size_y : ℕ
  scale : ℝ
  origin_x : ℝ
  origin_y : ℝ
  cells : List ℤ

/-- Lines 1130-1135: occupancy byte 0 becomes occ_state -1 (free),
100 becomes +1 (occupied), anything else 0 (unknown). -/
def occStateOfByte (b : ℤ) : ℤ :=
  if b = 0 then -1 else if b = 100 then 1 else 0

/-- `AmclNode::convertMap`, lines 1114-1139.  Note `(map->size_x / 2)`
is C integer division. -/
def convertMap (msg : OccGridMsg) : MapT :=
  { size_x := msg.width
    size_y := msg.height
    scale := msg.resolution
    origin_x := msg.origin_x + ((msg.width / 2 : ℕ) : ℝ) * msg.resolution
    origin_y := msg.origin_y + ((msg.height / 2 : ℕ) : ℝ) * msg.resolution
    cells := msg.data.map occStateOfByte }

/-- Modelled from the spec: the map module's row-major cell index
(`MAP_INDEX`), whose definition lives in `map.h`, not under `src/`;
the spec fixes "a cell array of size W·H" addressed row-major. -/
def MAP_INDEX (m : MapT) (i j : ℕ) : ℕ :=
  i + j * m.size_x

/-- Modelled from the spec: `cell_to_world` in x (`MAP_WXGX` in `map.h`,
not under `src/`); per the spec the map origin is the world coordinate of
the cell-grid center, so cell i maps to `origin_x + (i - size_x/2)*scale`
with C integer division for `size_x/2`. -/
noncomputable def MAP_WXGX (m : MapT) (i : ℕ) : ℝ :=
  m.origin_x + ((i : ℝ) - ((m.size_x / 2 : ℕ) : ℝ)) * m.scale

/-- Modelled from the spec: `cell_to_world` in y (`MAP_WYGY` in `map.h`,
not under `src/`). -/
noncomputable def MAP_WYGY (m : MapT) (j : ℕ) : ℝ :=
  m.origin_y + ((j : ℝ) - ((m.size_y / 2 : ℕ) : ℝ)) * m.scale

/-- `free_space_indices`, built in handleMapMessage lines 1013-1020: all
pairs (i, j) whose cell has `occ_state == -1`, pushed with i in the outer
loop and j in the inner loop. -/
def freeSpaceIndices (m : MapT) : List (ℕ × ℕ) :=
  ((List.range m.size_x).map (fun i =>
    (List.range m.size_y).filterMap (fun j =>
      if m.cells.get? (MAP_INDEX m i j) = some (-1) then some (i, j) else none))).join

/-- `AmclNode::uniformPoseGenerator`, lines 1196-1232, with
`NEW_UNIFORM_SAMPLING` (line 82) enabled.  `r1` and `r2` are the two
`drand48()` draws (each in [0,1)).  `rand_index` truncates
`drand48() * free_space_indices.size()`; the C++ then reads
`free_space_indices[rand_index]` with NO bounds check, so an empty index
is an out-of-bounds access - modelled as `none`. -/
noncomputable def uniformPoseGenerator (m : MapT) (freeIdx : List (ℕ × ℕ))
    (r1 r2 : ℚ) : Option PfVector :=
  let rand_index : ℕ := (⌊r1 * (freeIdx.length : ℚ)⌋).toNat
  match freeIdx.get? rand_index with
  | none => none
  | some fp => some ⟨MAP_WXGX m fp.1, MAP_WYGY m fp.2, (r2 : ℝ) * 2 * Real.pi - Real.pi⟩

/- ----------------------------------------------------------------
   Theorems.
   ---------------------------------------------------------------- -/

/-- Claim C10: the fusion coefficients `marker_coeff` and `laser_coeff`
are always equal: both are initialized (constructor lines 401-402, their
only assignments) from the key "camera_coeff" with default 0.5, so the
laser and marker observation models can never be weighted differently. -/
theorem c10_coeffs_equal (params : String → Option ℚ) :
    marker_coeff params = laser_coeff params ∧ marker_coeff (fun _ => none) = 1/2 :=
  ⟨rfl, rfl⟩

/-- Claim C2: on every laser update cycle the filter is resampled
unconditionally; on a camera update cycle it is resampled exactly when
the incremented cycle count is divisible by `resample_interval`, while
the `resampled` flag (which gates cluster-statistics recomputation and
pose publication) is set on every camera update cycle regardless. -/
theorem c2_resample_policy (c interval : ℤ) :
    (laserResampleStep c interval).2.1 = true ∧
    (laserResampleStep c interval).2.2 = true ∧
    ((cameraResampleStep c interval).2.1 = true ↔ interval ∣ (c + 1)) ∧
    (cameraResampleStep c interval).2.2 = true ∧
    (cameraResampleStep c interval).1 = c + 1 := by
  refine ⟨rfl, rfl, ?_, rfl, rfl⟩
  simp only [cameraResampleStep]
  by_cases h : (c + 1) % interval = 0
  · simp [h, Int.dvd_iff_emod_eq_zero]
  · simp [h, Int.dvd_iff_emod_eq_zero]

/-- Claim C5, counterexample: a camera-path fresh-update broadcast with
observation stamp 0 and tolerance 1 sends transforms stamped 0, not
0 + 1; so not every broadcast transform carries stamp + tolerance. -/
theorem c5_camera_stamp_counterexample :
    (cameraFreshBroadcast 0 1 "map" "odom").map StampedTransformT.stamp = [0, 0] ∧
    (0 : ℚ) + 1 ≠ 0 := by
  refine ⟨rfl, by norm_num⟩

/-- Claim C5, amended: the laser-path broadcasts (fresh and republish)
and the camera-path republish carry an expiry stamp equal to the
observation stamp plus `transform_tolerance`; the camera-path
fresh-update broadcast instead stamps its two transforms with the raw
observation timestamp (the computed expiry at line 2189 is unused). -/
theorem c5_transform_expiration (stamp tol : ℚ) (g o : String) :
    (laserFreshBroadcast stamp tol g o).stamp = stamp + tol ∧
    (laserRepublishBroadcast stamp tol g o).stamp = stamp + tol ∧
    (cameraRepublishBroadcast stamp tol g o).map StampedTransformT.stamp =
      [stamp + tol, stamp + tol] ∧
    (cameraFreshBroadcast stamp tol g o).map StampedTransformT.stamp = [stamp, stamp] :=
  ⟨rfl, rfl, rfl, rfl⟩

/-- Claim C9: in the laser callback every measured range at or below the
effective minimum range (the max of the scan's `range_min` and the
configured `laser_min_range` when that is set) is replaced by the
effective maximum range before being handed to the sensor model, and
every other range is passed through unchanged. -/
theorem c9_range_clamping (lmin lmax smin smax : ℚ) (ranges : List ℚ) (i : ℕ) (r : ℚ)
    (hr : ranges.get? i = some r) :
    (processScanRanges lmin lmax smin smax ranges).get? i =
      some (if r ≤ effectiveRangeMin lmin smin
        then effectiveRangeMax lmax smax else r) ∧
    (lmin > 0 → effectiveRangeMin lmin smin = max smin lmin) ∧
    (¬ r ≤ effectiveRangeMin lmin smin →
      processRange (effectiveRangeMin lmin smin) (effectiveRangeMax lmax smax) r = r) := by
  refine ⟨?_, ?_, ?_⟩
  · show (ranges.map _).get? i = _
    rw [List.get?_map, hr]
    rfl
  · intro h; simp [effectiveRangeMin, h]
  · intro h; simp [processRange, h]

/-- Claim C9, witness: with configured minimum 1, scan minimum 0,
configured maximum 10, scan maximum 12, the range 1/2 (at or below the
effective minimum max(0,1) = 1) is mapped to the effective maximum
min(12,10) = 10. -/
theorem c9_range_clamping_witness :
    (processScanRanges 1 10 0 12 [1/2, 5]).get? 0 =
      some (if (1/2 : ℚ) ≤ effectiveRangeMin 1 0
        then effectiveRangeMax 10 12 else 1/2) ∧
    ((1 : ℚ) > 0 → effectiveRangeMin 1 0 = max 0 1) ∧
    (¬ (1/2 : ℚ) ≤ effectiveRangeMin 1 0 →
      processRange (effectiveRangeMin 1 0) (effectiveRangeMax 10 12) (1/2) = 1/2) :=
  c9_range_clamping 1 10 0 12 [1/2, 5] 0 (1/2) rfl

/-- Claim C4: map construction maps occupancy byte 0 to occ_state -1
(free), byte 100 to +1 (occupied), any other byte to 0 (unknown), and
sets the map origin to message origin + (size/2)*resolution in each of x
and y (with C integer division on size/2, the source convention). -/
theorem c4_convertMap_spec (msg : OccGridMsg) (i : ℕ) (b : ℤ)
    (hb : msg.data.get? i = some b) :
    (convertMap msg).cells.get? i =
      some (if b = 0 then -1 else if b = 100 then 1 else 0) ∧
    (convertMap msg).origin_x = msg.origin_x + ((msg.width / 2 : ℕ) : ℝ) * msg.resolution ∧
    (convertMap msg).origin_y = msg.origin_y + ((msg.height / 2 : ℕ) : ℝ) * msg.resolution := by
  refine ⟨?_, rfl, rfl⟩
  show (msg.data.map occStateOfByte).get? i = _
  rw [List.get?_map, hb]
  rfl

/-- Claim C4, witness: a 2-by-1 grid whose bytes are [0, 100]; byte 0 at
index 0 becomes occ_state -1. -/
theorem c4_convertMap_witness :
    (convertMap ⟨2, 1, 1, 0, 0, [0, 100]⟩).cells.get? 0 =
      some (if (0 : ℤ) = 0 then -1 else if (0 : ℤ) = 100 then 1 else 0) ∧
    (convertMap ⟨2, 1, 1, 0, 0, [0, 100]⟩).origin_x =
      (0 : ℝ) + (((2 : ℕ) / 2 : ℕ) : ℝ) * 1 ∧
    (convertMap ⟨2, 1, 1, 0, 0, [0, 100]⟩).origin_y =
      (0 : ℝ) + (((1 : ℕ) / 2 : ℕ) : ℝ) * 1 :=
  c4_convertMap_spec ⟨2, 1, 1, 0, 0, [0, 100]⟩ 0 0 rfl

/-- A map with a single occupied cell: its free-cell index is empty. -/
noncomputable def mapNoFree : MapT :=
  { size_x := 1, size_y := 1, scale := 1, origin_x := 0, origin_y := 0, cells := [1] }

/-- Claim C7: on a degenerate map (no free cell) the free-cell index is
empty and the uniform pose generator produces no sample: the source
reads `free_space_indices[rand_index]` (line 1202) with no emptiness
check, an out-of-bounds access (undefined behavior), rather than failing
with any map-error signal. -/
theorem c7_empty_free_index :
    freeSpaceIndices mapNoFree = [] ∧
    uniformPoseGenerator mapNoFree (freeSpaceIndices mapNoFree) 0 0 = none :=
  ⟨rfl, rfl⟩

/- ----------------------------------------------------------------
   Angle arithmetic (lines 100-119).  The source's static helper is
   called `normalize`; that name is taken by Mathlib at top level, so
   the two helpers live in the `Amcl` namespace.
   ---------------------------------------------------------------- -/

namespace Amcl

/-- `normalize(z) = atan2(sin(z), cos(z))` (lines 100-104); atan2(y, x)
is the argument of the complex number x + y*i. -/
noncomputable def normalize (z : ℝ) : ℝ :=
  Complex.arg ((Real.cos z : ℂ) + (Real.sin z : ℂ) * Complex.I)

/-- The body of `angle_diff` on the already-normalized difference `d1`
(lines 111-118): `d2 = 2*pi - fabs(d1)`, negated when `d1 > 0`; return
whichever of `d1`, `d2` has the smaller magnitude. -/
noncomputable def angle_diff_core (d1 : ℝ) : ℝ :=
  let d2 := if 0 < d1 then -(2 * Real.pi - |d1|) else 2 * Real.pi - |d1|
  if |d1| < |d2| then d1 else d2

/-- `angle_diff(a, b)` (lines 105-119): both arguments are normalized,
then the core computation runs on their difference. -/
noncomputable def angle_diff (a b : ℝ) : ℝ :=
  angle_diff_core (normalize a - normalize b)

theorem normalize_mem_Ioc (z : ℝ) : normalize z ∈ Set.Ioc (-Real.pi) Real.pi :=
  Complex.arg_mem_Ioc _

theorem normalize_of_mem (z : ℝ) (h : z ∈ Set.Ioc (-Real.pi) Real.pi) :
    normalize z = z := by
  rw [normalize, Complex.ofReal_cos, Complex.ofReal_sin]
  exact Complex.arg_cos_add_sin_mul_I h

theorem angle_diff_core_neg (d : ℝ) : angle_diff_core (-d) = - angle_diff_core d := by
  have pi_pos := Real.pi_pos
  rcases lt_trichotomy 0 d with hd | hd | hd
  · have h1 : ¬ 0 < -d := by linarith
    simp only [angle_diff_core, if_pos hd, if_neg h1, abs_neg]
    split_ifs with h2
    · ring
    · ring
  · subst hd
    simp only [angle_diff_core, neg_zero]
    have h1 : ¬ (0:ℝ) < 0 := lt_irrefl 0
    rw [if_neg h1, abs_zero, sub_zero]
    rw [if_pos (by rw [abs_of_pos (show (0:ℝ) < 2 * Real.pi by linarith)]; linarith),
      neg_zero]
  · have h1 : 0 < -d := by linarith
    have h2 : ¬ 0 < d := by linarith
    simp only [angle_diff_core, if_pos h1, if_neg h2, abs_neg]
    split_ifs with h3
    · ring
    · ring

theorem angle_diff_core_mem (d : ℝ) (hd : |d| < 2 * Real.pi) :
    angle_diff_core d ∈ Set.Icc (-Real.pi) Real.pi := by
  have habs : (0:ℝ) ≤ |d| := abs_nonneg d
  have h2 : (0:ℝ) < 2 * Real.pi - |d| := by linarith
  have hld : -|d| ≤ d := neg_abs_le d
  have hud : d ≤ |d| := le_abs_self d
  simp only [angle_diff_core]
  by_cases hsgn : 0 < d
  · rw [if_pos hsgn, abs_neg, abs_of_pos h2]
    split_ifs with hlt
    · have := abs_lt.mp (show |d| < Real.pi by linarith)
      exact ⟨this.1.le, this.2.le⟩
    · push_neg at hlt
      exact ⟨by linarith, by linarith⟩
  · rw [if_neg hsgn, abs_of_pos h2]
    split_ifs with hlt
    · have := abs_lt.mp (show |d| < Real.pi by linarith)
      exact ⟨this.1.le, this.2.le⟩
    · push_neg at hlt
      exact ⟨by linarith, by linarith⟩

/-- Claim C3, amended: `angle_diff(a, b)` lies in the closed interval
[-pi, pi] (the endpoint -pi is attained, see the counterexample) and
`angle_diff(a, b) = -angle_diff(b, a)`; the yaw normalization is
`atan2(sin, cos)` by definition of `normalize`. -/
theorem c3_angle_diff_range_antisym (a b : ℝ) :
    angle_diff a b ∈ Set.Icc (-Real.pi) Real.pi ∧
    angle_diff a b = - angle_diff b a := by
  obtain ⟨ha1, ha2⟩ := normalize_mem_Ioc a
  obtain ⟨hb1, hb2⟩ := normalize_mem_Ioc b
  have pi_pos := Real.pi_pos
  constructor
  · exact angle_diff_core_mem _ (by rw [abs_sub_lt_iff]; constructor <;> linarith)
  · rw [angle_diff, angle_diff,
      show normalize b - normalize a = -(normalize a - normalize b) by ring,
      angle_diff_core_neg, neg_neg]

/-- Claim C3, counterexample: `angle_diff(pi, 0) = -pi`, which is not in
the half-open interval (-pi, pi]; the claimed range is violated. -/
theorem c3_angle_diff_counterexample :
    angle_diff Real.pi 0 = - Real.pi ∧
    angle_diff Real.pi 0 ∉ Set.Ioc (-Real.pi) Real.pi := by
  have pi_pos := Real.pi_pos
  have hnp : normalize Real.pi = Real.pi :=
    normalize_of_mem _ ⟨by linarith, le_refl _⟩
  have hn0 : normalize 0 = 0 := normalize_of_mem _ ⟨by linarith, by linarith⟩
  have key : angle_diff Real.pi 0 = - Real.pi := by
    rw [angle_diff, hnp, hn0, sub_zero]
    simp only [angle_diff_core, if_pos pi_pos, abs_of_pos pi_pos]
    rw [show 2 * Real.pi - Real.pi = Real.pi by ring, abs_neg, abs_of_pos pi_pos,
      if_neg (lt_irrefl _)]
  refine ⟨key, ?_⟩
  rw [key]
  rintro ⟨h, -⟩
  exact absurd h (lt_irrefl _)

end Amcl

/- ----------------------------------------------------------------
   Initial pose handling (handleInitialPoseMessage, lines 1710-1785).
   ---------------------------------------------------------------- -/

/-- The fields of a `geometry_msgs::PoseWithCovarianceStamped` consumed
by `handleInitialPoseMessage`: the frame, the pose, and the 6x6
covariance in row-major order. -/
structure InitialPoseMsg where
  frame_id : String
  pose : PfVector
  cov : Fin 36 → ℝ

/-- The 3x3 pose covariance extracted at lines 1769-1778: the x/y block
comes from entries 6*i+j (i, j < 2) and the yaw variance from entry
6*5+5 = 35. -/
structure Cov3 where
  m00 : ℝ
  m01 : ℝ
  m10 : ℝ
  m11 : ℝ
  m22 : ℝ

/-- The covariance copy loop of lines 1769-1778. -/
def covFromMsg (msg : InitialPoseMsg) : Cov3 :=
  ⟨msg.cov 0, msg.cov 1, msg.cov 6, msg.cov 7, msg.cov 35⟩

/-- `AmclNode::handleInitialPoseMessage`, lines 1710-1785, reduced to
its observable effect on the filter.  `resolve` stands for
`tf_->resolve` and `compose` for the tf pose product
`pose_old * tx_odom` (line 1755), both external library calls; `txOdom`
is the odometry correction looked up at lines 1730-1751.  Control flow
of lines 1714-1726: an EMPTY frame_id only logs a warning and falls
through to the re-initialization; a non-empty frame_id that does not
resolve to the global frame returns early (message dropped, filter
untouched, modelled as `none`); otherwise the filter is re-initialized
from the message pose and covariance (modelled as `some`). -/
def handleInitialPoseMessage (resolve : String → String)
    (compose : PfVector → PfVector → PfVector) (globalFrame : String)
    (msg : InitialPoseMsg) (txOdom : PfVector) : Option (PfVector × Cov3) :=
  if msg.frame_id = "" then
    some (compose msg.pose txOdom, covFromMsg msg)
  else if resolve msg.frame_id ≠ resolve globalFrame then
    none
  else
    some (compose msg.pose txOdom, covFromMsg msg)

/-- Claim C6, amended: an initial-pose message with a NON-EMPTY frame
that does not resolve to the global frame is dropped (with a logged
warning) and the filter is left unchanged, while a message with an empty
frame_id is warned about but still applied to the filter even though its
frame is not the global frame. -/
theorem c6_frame_mismatch_drop (resolve : String → String)
    (compose : PfVector → PfVector → PfVector) (globalFrame : String)
    (msg : InitialPoseMsg) (txOdom : PfVector)
    (hne : msg.frame_id ≠ "")
    (hmismatch : resolve msg.frame_id ≠ resolve globalFrame) :
    handleInitialPoseMessage resolve compose globalFrame msg txOdom = none := by
  simp [handleInitialPoseMessage, hne, hmismatch]

/-- Claim C6, witness: a message in frame "odom" with global frame "map"
(and identity frame resolution) is dropped. -/
theorem c6_frame_mismatch_drop_witness :
    handleInitialPoseMessage id (fun p _ => p) "map"
      ⟨"odom", ⟨0, 0, 0⟩, fun _ => 0⟩ ⟨0, 0, 0⟩ = none :=
  c6_frame_mismatch_drop id (fun p _ => p) "map"
    ⟨"odom", ⟨0, 0, 0⟩, fun _ => 0⟩ ⟨0, 0, 0⟩ (by decide) (by decide)

/-- Claim C6, counterexample: a message whose frame_id is "" (empty) is
NOT the global frame "map", yet it is not dropped: the filter is
re-initialized from it, so handling the message changes the filter
state. -/
theorem c6_empty_frame_counterexample :
    ("" : String) ≠ "map" ∧
    handleInitialPoseMessage id (fun p _ => p) "map"
      ⟨"", ⟨1, 2, 0⟩, fun _ => 0⟩ ⟨0, 0, 0⟩ ≠ none := by
  constructor
  · decide
  · simp [handleInitialPoseMessage]

/- ----------------------------------------------------------------
   Uniform pose generation over the free-cell index (claims C7, C8).
   ---------------------------------------------------------------- -/

theorem mem_freeSpaceIndices (m : MapT) (p : ℕ × ℕ) (hp : p ∈ freeSpaceIndices m) :
    m.cells.get? (MAP_INDEX m p.1 p.2) = some (-1) := by
  simp only [freeSpaceIndices, List.mem_join, List.mem_map] at hp
  obtain ⟨s, ⟨i, -, hs⟩, hps⟩ := hp
  rw [← hs] at hps
  rw [List.mem_filterMap] at hps
  obtain ⟨j, -, hj⟩ := hps
  by_cases hc : m.cells.get? (MAP_INDEX m i j) = some (-1)
  · rw [if_pos hc] at hj
    cases hj
    exact hc
  · rw [if_neg hc] at hj
    cases hj

/-- Claim C8, amended: when the free-cell index is non-empty, the
uniform pose generator returns a pose whose (x, y) are the world
coordinates of a cell recorded in the free-cell index (a cell whose
occ_state is -1, i.e. free) and whose yaw lies in the HALF-OPEN interval
[-pi, pi): `drand48() * 2 * M_PI - M_PI` with drand48 in [0, 1) attains
-pi but never pi. -/
theorem c8_uniform_pose_spec (m : MapT) (r1 r2 : ℚ)
    (h1 : 0 ≤ r1) (h2 : r1 < 1) (h3 : 0 ≤ r2) (h4 : r2 < 1)
    (hne : freeSpaceIndices m ≠ []) :
    ∃ p ∈ freeSpaceIndices m,
      m.cells.get? (MAP_INDEX m p.1 p.2) = some (-1) ∧
      uniformPoseGenerator m (freeSpaceIndices m) r1 r2 =
        some ⟨MAP_WXGX m p.1, MAP_WYGY m p.2, (r2 : ℝ) * 2 * Real.pi - Real.pi⟩ ∧
      -Real.pi ≤ (r2 : ℝ) * 2 * Real.pi - Real.pi ∧
      (r2 : ℝ) * 2 * Real.pi - Real.pi < Real.pi := by
  have hlen : 0 < (freeSpaceIndices m).length := List.length_pos.mpr hne
  have hmul0 : (0:ℚ) ≤ r1 * ((freeSpaceIndices m).length : ℚ) :=
    mul_nonneg h1 (by positivity)
  have hmul1 : r1 * ((freeSpaceIndices m).length : ℚ) < ((freeSpaceIndices m).length : ℚ) := by
    calc r1 * ((freeSpaceIndices m).length : ℚ)
        < 1 * ((freeSpaceIndices m).length : ℚ) := by
          apply mul_lt_mul_of_pos_right h2
          exact_mod_cast hlen
      _ = ((freeSpaceIndices m).length : ℚ) := one_mul _
  have hfl0 : 0 ≤ ⌊r1 * ((freeSpaceIndices m).length : ℚ)⌋ := Int.floor_nonneg.mpr hmul0
  have hfl1 : ⌊r1 * ((freeSpaceIndices m).length : ℚ)⌋ < ((freeSpaceIndices m).length : ℤ) := by
    rw [Int.floor_lt]
    exact_mod_cast hmul1
  have hidx : (⌊r1 * ((freeSpaceIndices m).length : ℚ)⌋).toNat < (freeSpaceIndices m).length := by
    omega
  have hget : (freeSpaceIndices m).get? ((⌊r1 * ((freeSpaceIndices m).length : ℚ)⌋).toNat) =
      some ((freeSpaceIndices m).get ⟨_, hidx⟩) := List.get?_eq_get hidx
  have hmem : (freeSpaceIndices m).get ⟨_, hidx⟩ ∈ freeSpaceIndices m := List.get_mem _ _ _
  have hpi := Real.pi_pos
  have hr3 : (0:ℝ) ≤ (r2 : ℝ) := by exact_mod_cast h3
  have hr4 : ((r2 : ℝ)) < 1 := by exact_mod_cast h4
  refine ⟨(freeSpaceIndices m).get ⟨_, hidx⟩, hmem, mem_freeSpaceIndices m _ hmem, ?_, ?_, ?_⟩
  · simp only [uniformPoseGenerator]
    rw [hget]
  · nlinarith
  · nlinarith

/-- A 1-by-1 map whose single cell is free. -/
noncomputable def mapOneFree : MapT :=
  { size_x := 1, size_y := 1, scale := 1, origin_x := 0, origin_y := 0, cells := [-1] }

theorem freeSpaceIndices_mapOneFree : freeSpaceIndices mapOneFree = [(0, 0)] := rfl

/-- Claim C8, witness: on the 1-by-1 free map with draws r1 = 0 and
r2 = 1/2, the generator produces the world coordinates of the free cell
(0, 0) with yaw (1/2)*2*pi - pi = 0 inside [-pi, pi). -/
theorem c8_uniform_pose_spec_witness :
    ∃ p ∈ freeSpaceIndices mapOneFree,
      mapOneFree.cells.get? (MAP_INDEX mapOneFree p.1 p.2) = some (-1) ∧
      uniformPoseGenerator mapOneFree (freeSpaceIndices mapOneFree) 0 (1/2) =
        some ⟨MAP_WXGX mapOneFree p.1, MAP_WYGY mapOneFree p.2,
          ((1/2 : ℚ) : ℝ) * 2 * Real.pi - Real.pi⟩ ∧
      -Real.pi ≤ ((1/2 : ℚ) : ℝ) * 2 * Real.pi - Real.pi ∧
      ((1/2 : ℚ) : ℝ) * 2 * Real.pi - Real.pi < Real.pi :=
  c8_uniform_pose_spec mapOneFree 0 (1/2) (by norm_num) (by norm_num)
    (by norm_num) (by norm_num)
    (by rw [freeSpaceIndices_mapOneFree]; exact List.cons_ne_nil _ _)

/-- Claim C8, counterexample: with the first draw r2 = 0 (a value
drand48 can return), the generated yaw is exactly -pi, which is NOT in
the claimed interval (-pi, pi]. -/
theorem c8_yaw_boundary_counterexample :
    (uniformPoseGenerator mapOneFree (freeSpaceIndices mapOneFree) 0 0).map PfVector.yaw =
      some ((0 : ℝ) * 2 * Real.pi - Real.pi) ∧
    (0 : ℝ) * 2 * Real.pi - Real.pi = -Real.pi ∧
    ¬ (-Real.pi < (0 : ℝ) * 2 * Real.pi - Real.pi) := by
  refine ⟨?_, by ring, ?_⟩
  · rw [freeSpaceIndices_mapOneFree]
    norm_num [uniformPoseGenerator]
  · rw [show (0 : ℝ) * 2 * Real.pi - Real.pi = -Real.pi by ring]
    exact lt_irrefl _

/- ----------------------------------------------------------------
   Per-sensor update gates (laserReceived lines 1334-1473,
   detectionCallback lines 1943-2035).
   ---------------------------------------------------------------- -/

/-- One sensor's gate state: `pf_init_scan`/`pf_init_cam`,
`latest_odom_pose_scan`/`latest_odom_pose_camera`,
`m_force_update_scan`/`m_force_update_cam`, and the update flag
(`lasers_update_[i]` resp. `marker_update`). -/
structure GateState where
  pfInit : Bool
  lastPose : PfVector
  force : Bool
  updateFlag : Bool

/-- The motion-threshold test (laser lines 1350-1352, camera lines
1974-1976): `fabs(dx) > d_thresh || fabs(dy) > d_thresh ||
fabs(angle_diff(yaw, last_yaw)) > a_thresh`. -/
noncomputable def motionCond (d_thresh a_thresh : ℝ) (pose last : PfVector) : Bool :=
  if |pose.x - last.x| > d_thresh ∨ |pose.y - last.y| > d_thresh ∨
      |Amcl.angle_diff pose.yaw last.yaw| > a_thresh then true else false

/-- The laser gate for one `laserReceived` cycle (single laser frame,
lines 1334-1473), given the current odometric pose.  Returns the new
gate state and whether laser sensor scoring (`UpdateSensor`, line 1465)
runs this cycle.  When initialized: the update decision is the motion
test OR the force flag (lines 1350-1354), the force flag is cleared, and
a positive decision sets the update flag (lines 1357-1359); scoring runs
iff the update flag is set (line 1402), after which the flag is cleared
and the last pose refreshed (lines 1469-1472).  When not initialized:
the pose is seeded, the flag set, and scoring runs (lines 1363-1379). -/
noncomputable def laserGateStep (d a : ℝ) (st : GateState) (pose : PfVector) :
    GateState × Bool :=
  if st.pfInit then
    let update := motionCond d a pose st.lastPose || st.force
    let flag := if update then true else st.updateFlag
    if flag then
      (⟨true, pose, false, false⟩, true)
    else
      (⟨true, st.lastPose, false, flag⟩, false)
  else
    (⟨true, pose, st.force, false⟩, true)

/-- The camera gate for one `detectionCallback` cycle (lines 1943-2035).
Identical to the laser gate except that (a) a change of detection frame
pre-sets the update flag (lines 1943-1950), and (b) inside the scoring
block `marker_->UpdateSensor` only runs when the detection list is
non-empty (line 2029), although the gate bookkeeping (flag clear, pose
refresh, lines 2033-2035) happens regardless. -/
noncomputable def cameraGateStep (d a : ℝ) (st : GateState) (pose : PfVector)
    (frameChanged obsNonempty : Bool) : GateState × Bool :=
  let st0 : GateState :=
    if frameChanged then ⟨st.pfInit, st.lastPose, st.force, true⟩ else st
  if st0.pfInit then
    let update := motionCond d a pose st0.lastPose || st0.force
    let flag := if update then true else st0.updateFlag
    if flag then
      (⟨true, pose, false, false⟩, obsNonempty)
    else
      (⟨true, st0.lastPose, false, flag⟩, false)
  else
    (⟨true, pose, st0.force, false⟩, obsNonempty)

/-- Claim C1, amended: once the filter is initialized for a sensor, and
with that sensor's update flag clear at entry (the steady state: the
flag is cleared by every scoring cycle) and, for the camera, an
unchanged detection frame, an incoming observation triggers sensor
scoring iff |dx| > d_thresh or |dy| > d_thresh or |dyaw| > a_thresh or
the sensor's force flag is set - except that the camera only scores a
NON-EMPTY detection list (here `obsNonempty = true`); an empty detection
set skips scoring for that cycle even when the threshold test passes. -/
theorem c1_sensor_gate_scoring (d a : ℝ) (st : GateState) (pose : PfVector)
    (hInit : st.pfInit = true) (hFlag : st.updateFlag = false) :
    ((laserGateStep d a st pose).2 = true ↔
      (|pose.x - st.lastPose.x| > d ∨ |pose.y - st.lastPose.y| > d ∨
        |Amcl.angle_diff pose.yaw st.lastPose.yaw| > a ∨ st.force = true)) ∧
    ((cameraGateStep d a st pose false true).2 = true ↔
      (|pose.x - st.lastPose.x| > d ∨ |pose.y - st.lastPose.y| > d ∨
        |Amcl.angle_diff pose.yaw st.lastPose.yaw| > a ∨ st.force = true)) := by
  rcases st with ⟨pi, lp, f, uf⟩
  simp only at hInit hFlag
  subst hInit
  subst hFlag
  by_cases hP : |pose.x - lp.x| > d ∨ |pose.y - lp.y| > d ∨
      |Amcl.angle_diff pose.yaw lp.yaw| > a
  · cases f <;> simp [laserGateStep, cameraGateStep, motionCond, hP]
  · cases f <;> simp [laserGateStep, cameraGateStep, motionCond, hP]

/-- A gate in steady state: initialized at the origin pose, no force
request, update flag clear. -/
noncomputable def gateStInit : GateState :=
  ⟨true, ⟨0, 0, 0⟩, false, false⟩

/-- An odometric pose far from the gate's last pose. -/
noncomputable def poseFar : PfVector :=
  ⟨5, 0, 0⟩

/-- Claim C1, witness: with thresholds d_thresh = a_thresh = 1, last
pose at the origin and current pose at x = 5, both gates score iff the
(satisfied) motion condition holds. -/
theorem c1_sensor_gate_scoring_witness :
    ((laserGateStep 1 1 gateStInit poseFar).2 = true ↔
      (|poseFar.x - gateStInit.lastPose.x| > 1 ∨
        |poseFar.y - gateStInit.lastPose.y| > 1 ∨
        |Amcl.angle_diff poseFar.yaw gateStInit.lastPose.yaw| > 1 ∨
        gateStInit.force = true)) ∧
    ((cameraGateStep 1 1 gateStInit poseFar false true).2 = true ↔
      (|poseFar.x - gateStInit.lastPose.x| > 1 ∨
        |poseFar.y - gateStInit.lastPose.y| > 1 ∨
        |Amcl.angle_diff poseFar.yaw gateStInit.lastPose.yaw| > 1 ∨
        gateStInit.force = true)) :=
  c1_sensor_gate_scoring 1 1 gateStInit poseFar rfl rfl

/-- Claim C1, counterexample: in an initialized camera gate whose motion
delta exceeds the threshold (|dx| = 5 > 1), a cycle whose detection list
is empty does NOT run sensor scoring, contradicting the claimed
"if and only if". -/
theorem c1_empty_detection_counterexample :
    (cameraGateStep 1 1 gateStInit poseFar false false).2 = false ∧
    |poseFar.x - gateStInit.lastPose.x| > 1 ∧
    gateStInit.pfInit = true := by
  refine ⟨?_, ?_, rfl⟩
  · have hP : |poseFar.x - gateStInit.lastPose.x| > (1:ℝ) ∨
        |poseFar.y - gateStInit.lastPose.y| > (1:ℝ) ∨
        |Amcl.angle_diff poseFar.yaw gateStInit.lastPose.yaw| > (1:ℝ) := by
      left
      show |(5:ℝ) - 0| > 1
      norm_num
    simp only [cameraGateStep, motionCond, gateStInit, poseFar] at hP ⊢
    simp [hP]
  · show |(5:ℝ) - 0| > 1
    norm_num
